import Mathlib

/-!
Verification of the value-to-tree encoder of `serde-yaml` (`src/yaml/src/ser.rs`).

The encoder is a serde visitor that turns a Rust value into a `yaml_rust::Yaml`
tree.  We embed the tree type, the per-event serializer callbacks, and the
map-builder state machine, and prove the spec's claims about them.
-/

/-- The `yaml_rust::Yaml` tree value, as used by the serializer:
Null, Boolean, Integer (i64), Real (textual form), String, Array, Hash. -/
inductive Yaml where
  | null : Yaml
  | boolean (b : Bool) : Yaml
  | integer (v : Int) : Yaml
  | real (s : String) : Yaml
  | string (s : String) : Yaml
  | array (xs : List Yaml) : Yaml
  | hash (pairs : List (Yaml × Yaml)) : Yaml
deriving Repr

/-- The serializer's error type (`super::error::Error`); the encoder itself
only ever constructs the `Custom` case with a descriptive message. -/
inductive Error where
  | custom (msg : String) : Error
deriving Repr, DecidableEq

/-- Modelled from the spec: the Tree Model's `Hash` is an external collaborator
(yaml-rust's `yaml::Hash`, whose code is not part of this repository).  Per the
spec's Tree Model contract it is an ordered sequence of (key, value) pairs with
insertion order preserved and key uniqueness not enforced — duplicate keys are
passed through unchanged — so `insert` appends the new pair at the end. -/
def hashInsert (h : List (Yaml × Yaml)) (k v : Yaml) : List (Yaml × Yaml) :=
  h ++ [(k, v)]

/-- `singleton_hash(k, v)` from `ser.rs`: a fresh hash holding exactly one pair. -/
def singleton_hash (k v : Yaml) : Yaml :=
  Yaml.hash (hashInsert [] k v)

namespace Serializer

/-- `Serializer::serialize_bool`: sets the result slot to `Yaml::Boolean(v)`. -/
def serialize_bool (v : Bool) : Yaml := Yaml.boolean v

/-- `Serializer::serialize_i64`: sets the result slot to `Yaml::Integer(v)`. -/
def serialize_i64 (v : Int) : Yaml := Yaml.integer v

/-- `Serializer::serialize_isize`: `self.serialize_i64(v as i64)`; the cast
from `isize` (64-bit platform) is value-preserving, so the identity on values. -/
def serialize_isize (v : Int) : Yaml := serialize_i64 v

/-- `Serializer::serialize_i8`: `self.serialize_i64(v as i64)`; sign extension
is value-preserving. -/
def serialize_i8 (v : Int) : Yaml := serialize_i64 v

/-- `Serializer::serialize_i16`: `self.serialize_i64(v as i64)`. -/
def serialize_i16 (v : Int) : Yaml := serialize_i64 v

/-- `Serializer::serialize_i32`: `self.serialize_i64(v as i64)`. -/
def serialize_i32 (v : Int) : Yaml := serialize_i64 v

/-- The Rust cast `v as i64` applied to a `u64` value (a natural number below
`2^64`): two's-complement reinterpretation of the 64-bit pattern. -/
def u64_as_i64 (v : Nat) : Int :=
  if v % 2 ^ 64 < 2 ^ 63 then ((v % 2 ^ 64 : Nat) : Int)
  else ((v % 2 ^ 64 : Nat) : Int) - 2 ^ 64

/-- `Serializer::serialize_u64`: `self.serialize_i64(v as i64)`. -/
def serialize_u64 (v : Nat) : Yaml := serialize_i64 (u64_as_i64 v)

/-- `Serializer::serialize_usize`: `self.serialize_i64(v as i64)`; `usize` is
64 bits wide on the reference platform, so the same cast as `u64`. -/
def serialize_usize (v : Nat) : Yaml := serialize_i64 (u64_as_i64 v)

/-- `Serializer::serialize_u8`: `self.serialize_i64(v as i64)`; zero extension
is value-preserving. -/
def serialize_u8 (v : Nat) : Yaml := serialize_i64 v

/-- `Serializer::serialize_u16`: `self.serialize_i64(v as i64)`. -/
def serialize_u16 (v : Nat) : Yaml := serialize_i64 v

/-- `Serializer::serialize_u32`: `self.serialize_i64(v as i64)`. -/
def serialize_u32 (v : Nat) : Yaml := serialize_i64 v

/-- `Serializer::serialize_f32`: `Yaml::Real(v.to_string())`.  Floating point
is not embeddable, so the argument is the textual form `v.to_string()`. -/
def serialize_f32 (text : String) : Yaml := Yaml.real text

/-- `Serializer::serialize_f64`: `Yaml::Real(v.to_string())`, textual form. -/
def serialize_f64 (text : String) : Yaml := Yaml.real text

/-- `Serializer::serialize_char`: `Yaml::String(value.to_string())`. -/
def serialize_char (c : Char) : Yaml := Yaml.string (String.singleton c)

/-- `Serializer::serialize_str`: `Yaml::String(String::from(value))`. -/
def serialize_str (s : String) : Yaml := Yaml.string s

/-- `Serializer::serialize_unit`: `Yaml::Null`. -/
def serialize_unit : Yaml := Yaml.null

/-- `Serializer::serialize_unit_struct`: `Yaml::Null`, the name is dropped. -/
def serialize_unit_struct (_name : String) : Yaml := Yaml.null

/-- `Serializer::serialize_unit_variant`: `Yaml::String(variant)`. -/
def serialize_unit_variant (_name : String) (_idx : Nat) (variant : String) : Yaml :=
  Yaml.string variant

/-- `Serializer::serialize_seq`: opens a sequence builder, an empty
`yaml::Array` (the capacity hint only pre-sizes the allocation). -/
def serialize_seq (_len : Option Nat) : List Yaml := []

/-- `Serializer::serialize_seq_elt`: `state.push(to_yaml(elem))`, with the
element already encoded to a tree value. -/
def serialize_seq_elt (state : List Yaml) (elem : Yaml) : List Yaml :=
  state ++ [elem]

/-- `Serializer::serialize_seq_end`: the finished array becomes the result. -/
def serialize_seq_end (state : List Yaml) : Yaml := Yaml.array state

/-- `Serializer::serialize_bytes`: opens a sequence sized to the byte count,
pushes each byte through `serialize_seq_elt` (each `&u8` element is encoded by
`serialize_u8`), and closes the sequence. -/
def serialize_bytes (value : List Nat) : Yaml :=
  serialize_seq_end
    (value.foldl (fun st c => serialize_seq_elt st (serialize_u8 c))
      (serialize_seq (some value.length)))

/-- The map-builder state `(Option<Yaml>, yaml::Hash)`: the pending-key slot
and the accumulated pairs. -/
def MapState : Type := Option Yaml × List (Yaml × Yaml)

/-- `Serializer::serialize_map`: opens a map builder `(None, Hash::new())`. -/
def serialize_map (_len : Option Nat) : Except Error MapState :=
  .ok ((none, []) : Option Yaml × List (Yaml × Yaml))

/-- `Serializer::serialize_map_key`: `state.0 = Some(to_yaml(key)); Ok(())`,
with the key already encoded.  The pair returned is (state after the call,
result), mirroring the Rust `&mut state` plus `Result<()>`. -/
def serialize_map_key (state : Option Yaml × List (Yaml × Yaml)) (key : Yaml) :
    (Option Yaml × List (Yaml × Yaml)) × Except Error Unit :=
  ((some key, state.2), .ok ())

/-- `Serializer::serialize_map_value`: `state.0.take()` empties the pending-key
slot; with a pending key the (key, value) pair is inserted into the hash, with
none the call fails with the protocol-error message, the hash untouched. -/
def serialize_map_value (state : Option Yaml × List (Yaml × Yaml)) (value : Yaml) :
    (Option Yaml × List (Yaml × Yaml)) × Except Error Unit :=
  match state.1 with
  | some key => ((none, hashInsert state.2 key value), .ok ())
  | none =>
      ((none, state.2),
        .error (Error.custom
          "serialize_map_value called without matching serialize_map_key call"))

/-- `Serializer::serialize_map_end`: the accumulated hash becomes the result. -/
def serialize_map_end (state : Option Yaml × List (Yaml × Yaml)) : Yaml :=
  Yaml.hash state.2

/-- `Serializer::serialize_tuple_variant_end`: closes the inner sequence and
wraps it as `singleton_hash(String(variant), Array)`. -/
def serialize_tuple_variant_end (state : String × List Yaml) : Yaml :=
  singleton_hash (serialize_str state.1) (serialize_seq_end state.2)

/-- `Serializer::serialize_struct_variant_end`: closes the inner map and wraps
it as `singleton_hash(String(variant), Hash)`. -/
def serialize_struct_variant_end
    (state : String × (Option Yaml × List (Yaml × Yaml))) : Yaml :=
  singleton_hash (serialize_str state.1) (serialize_map_end state.2)

/-- The caller's map traversal at the event level: for each already-encoded
(key, value) pair, submit the key event then the value event, stopping at the
first error, exactly as serde's map `Serialize` impls drive the builder. -/
def runMapSubmissions (pairs : List (Yaml × Yaml))
    (st : Option Yaml × List (Yaml × Yaml)) :
    (Option Yaml × List (Yaml × Yaml)) × Except Error Unit :=
  match pairs with
  | [] => (st, .ok ())
  | (k, v) :: rest =>
      let s1 := serialize_map_key st k
      let s2 := serialize_map_value s1.1 v
      match s2.2 with
      | .ok _ => runMapSubmissions rest s2.1
      | .error e => (s2.1, .error e)

end Serializer

/-- The shape of a serializable Rust value, one constructor per serde event
kind that the serializer implements.  Integer constructors carry the
mathematical value (signed as `Int`, unsigned as `Nat`); float constructors
carry the `to_string()` text form. -/
inductive SValue where
  | sBool (b : Bool) : SValue
  | sISize (v : Int) : SValue
  | sI8 (v : Int) : SValue
  | sI16 (v : Int) : SValue
  | sI32 (v : Int) : SValue
  | sI64 (v : Int) : SValue
  | sUSize (v : Nat) : SValue
  | sU8 (v : Nat) : SValue
  | sU16 (v : Nat) : SValue
  | sU32 (v : Nat) : SValue
  | sU64 (v : Nat) : SValue
  | sF32 (text : String) : SValue
  | sF64 (text : String) : SValue
  | sChar (c : Char) : SValue
  | sStr (s : String) : SValue
  | sBytes (bs : List Nat) : SValue
  | sUnit : SValue
  | sUnitStruct (name : String) : SValue
  | sUnitVariant (name : String) (idx : Nat) (variant : String) : SValue
  | sNewtypeStruct (name : String) (x : SValue) : SValue
  | sNewtypeVariant (name : String) (idx : Nat) (variant : String) (x : SValue) : SValue
  | sNone : SValue
  | sSome (x : SValue) : SValue
  | sSeq (xs : List SValue) : SValue
  | sTuple (xs : List SValue) : SValue
  | sTupleStruct (name : String) (xs : List SValue) : SValue
  | sTupleVariant (name : String) (idx : Nat) (variant : String) (xs : List SValue) : SValue
  | sMap (pairs : List (SValue × SValue)) : SValue
  | sStruct (name : String) (fields : List (String × SValue)) : SValue
  | sStructVariant (name : String) (idx : Nat) (variant : String)
      (fields : List (String × SValue)) : SValue

mutual

/-- `to_yaml(elem)` from `ser.rs`: runs a fresh serializer over the value's
traversal and extracts the resulting tree value.  Each arm is the serializer
callback the corresponding serde event reaches. -/
def to_yaml : SValue → Except Error Yaml
  | .sBool b => .ok (Serializer.serialize_bool b)
  | .sISize v => .ok (Serializer.serialize_isize v)
  | .sI8 v => .ok (Serializer.serialize_i8 v)
  | .sI16 v => .ok (Serializer.serialize_i16 v)
  | .sI32 v => .ok (Serializer.serialize_i32 v)
  | .sI64 v => .ok (Serializer.serialize_i64 v)
  | .sUSize v => .ok (Serializer.serialize_usize v)
  | .sU8 v => .ok (Serializer.serialize_u8 v)
  | .sU16 v => .ok (Serializer.serialize_u16 v)
  | .sU32 v => .ok (Serializer.serialize_u32 v)
  | .sU64 v => .ok (Serializer.serialize_u64 v)
  | .sF32 t => .ok (Serializer.serialize_f32 t)
  | .sF64 t => .ok (Serializer.serialize_f64 t)
  | .sChar c => .ok (Serializer.serialize_char c)
  | .sStr s => .ok (Serializer.serialize_str s)
  | .sBytes bs => .ok (Serializer.serialize_bytes bs)
  | .sUnit => .ok Serializer.serialize_unit
  | .sUnitStruct name => .ok (Serializer.serialize_unit_struct name)
  | .sUnitVariant name idx variant => .ok (Serializer.serialize_unit_variant name idx variant)
  | .sNewtypeStruct _ x => to_yaml x
  | .sNewtypeVariant _ _ variant x => do
      let y ← to_yaml x
      .ok (singleton_hash (Serializer.serialize_str variant) y)
  | .sNone => .ok Serializer.serialize_unit
  | .sSome x => to_yaml x
  | .sSeq xs => do
      let ys ← to_yaml_list xs
      .ok (Serializer.serialize_seq_end ys)
  | .sTuple xs => do
      let ys ← to_yaml_list xs
      .ok (Serializer.serialize_seq_end ys)
  | .sTupleStruct _ xs => do
      let ys ← to_yaml_list xs
      .ok (Serializer.serialize_seq_end ys)
  | .sTupleVariant _ _ variant xs => do
      let ys ← to_yaml_list xs
      .ok (Serializer.serialize_tuple_variant_end (variant, ys))
  | .sMap pairs => do
      let st ← to_yaml_pairs pairs (none, [])
      .ok (Serializer.serialize_map_end st)
  | .sStruct _ fields => do
      let st ← to_yaml_fields fields (none, [])
      .ok (Serializer.serialize_map_end st)
  | .sStructVariant _ _ variant fields => do
      let st ← to_yaml_fields fields (none, [])
      .ok (Serializer.serialize_struct_variant_end (variant, st))

/-- Element-by-element encoding of a sequence through `serialize_seq_elt`
(the pushes accumulate left to right, so the list of encodings in order). -/
def to_yaml_list : List SValue → Except Error (List Yaml)
  | [] => .ok []
  | x :: xs => do
      let y ← to_yaml x
      let ys ← to_yaml_list xs
      .ok (y :: ys)

/-- The map traversal: each entry submits `serialize_map_key` then
`serialize_map_value` to the builder, propagating the first error. -/
def to_yaml_pairs : List (SValue × SValue) → Option Yaml × List (Yaml × Yaml) →
    Except Error (Option Yaml × List (Yaml × Yaml))
  | [], st => .ok st
  | (k, v) :: rest, st => do
      let yk ← to_yaml k
      let s1 := Serializer.serialize_map_key st yk
      let yv ← to_yaml v
      let s2 := Serializer.serialize_map_value s1.1 yv
      match s2.2 with
      | .ok _ => to_yaml_pairs rest s2.1
      | .error e => .error e

/-- The struct traversal (`serialize_struct_elt`): each field name is submitted
as a string key followed by the field's value. -/
def to_yaml_fields : List (String × SValue) → Option Yaml × List (Yaml × Yaml) →
    Except Error (Option Yaml × List (Yaml × Yaml))
  | [], st => .ok st
  | (name, v) :: rest, st => do
      let s1 := Serializer.serialize_map_key st (Serializer.serialize_str name)
      let yv ← to_yaml v
      let s2 := Serializer.serialize_map_value s1.1 yv
      match s2.2 with
      | .ok _ => to_yaml_fields rest s2.1
      | .error e => .error e

end

/-- An underlying I/O error (`std::io::Error`), carrying its descriptive
detail; the writer adapter is expected to discard this detail. -/
def IoError : Type := String

/-- The opaque `std::fmt::Error`: a unit type carrying no information. -/
inductive FmtError where
  | mk : FmtError
deriving Repr, DecidableEq

/-- UTF-8 encoding of one scalar value, the transcoding `str::as_bytes`
exposes per character. -/
def utf8Bytes (c : Char) : List Nat :=
  let n := c.toNat
  if n < 0x80 then [n]
  else if n < 0x800 then
    [0xC0 ||| (n >>> 6), 0x80 ||| (n &&& 0x3F)]
  else if n < 0x10000 then
    [0xE0 ||| (n >>> 12), 0x80 ||| ((n >>> 6) &&& 0x3F), 0x80 ||| (n &&& 0x3F)]
  else
    [0xF0 ||| (n >>> 18), 0x80 ||| ((n >>> 12) &&& 0x3F),
      0x80 ||| ((n >>> 6) &&& 0x3F), 0x80 ||| (n &&& 0x3F)]

/-- `s.as_bytes()`: the UTF-8 transcoding of a text chunk. -/
def strBytes (s : String) : List Nat :=
  (s.data.map utf8Bytes).flatten

namespace FmtToIoWriter

/-- `FmtToIoWriter::write_str`: hands the chunk's UTF-8 bytes to the underlying
sink's `write` in one call; a sink failure is mapped to the opaque `fmt::Error`,
success to `Ok(())`.  The sink is any stateful byte writer: `write` takes its
state and the bytes and returns the new state with either the number of bytes
accepted or an I/O error.  The returned pair is (sink state after the call,
result). -/
def write_str {σ : Type} (write : σ → List Nat → σ × Except IoError Nat)
    (st : σ) (s : String) : σ × Except FmtError Unit :=
  let r := write st (strBytes s)
  match r.2 with
  | .error _ => (r.1, .error FmtError.mk)
  | .ok _ => (r.1, .ok ())

/-- The `io::Write` impl of `Vec<u8>`: appends every byte and reports the full
length written, never failing. -/
def vecWrite (buf : List Nat) (bytes : List Nat) : List Nat × Except IoError Nat :=
  (buf ++ bytes, .ok bytes.length)

/-- A sink whose `write` always fails with the given detailed I/O error. -/
def failWrite (detail : IoError) : Unit → List Nat → Unit × Except IoError Nat :=
  fun _ _ => ((), .error detail)

end FmtToIoWriter

/-- Driving any list of already-encoded (key, value) submissions from a state
with no pending key succeeds and appends the pairs in submission order. -/
theorem runMapSubmissions_ok (pairs : List (Yaml × Yaml)) (acc : List (Yaml × Yaml)) :
    Serializer.runMapSubmissions pairs (none, acc) = ((none, acc ++ pairs), .ok ()) := by
  induction pairs generalizing acc with
  | nil => simp [Serializer.runMapSubmissions]
  | cons p rest ih =>
      obtain ⟨k, v⟩ := p
      simp [Serializer.runMapSubmissions, Serializer.serialize_map_key,
        Serializer.serialize_map_value, hashInsert, ih]

/-- Pushing each byte's encoding onto an accumulator is mapping `Integer` over
the bytes. -/
theorem foldl_bytes_eq_map (bs : List Nat) (acc : List Yaml) :
    bs.foldl (fun st c => Serializer.serialize_seq_elt st (Serializer.serialize_u8 c)) acc
      = acc ++ bs.map (fun b => Yaml.integer (Int.ofNat b)) := by
  induction bs generalizing acc with
  | nil => simp
  | cons b rest ih =>
      rw [List.foldl_cons, ih]
      simp [Serializer.serialize_seq_elt, Serializer.serialize_u8,
        Serializer.serialize_i64]

/-- The cast `v as i64` on a `u64` value below the signed maximum is the
identity on values. -/
theorem u64_as_i64_of_lt (v : Nat) (h : v < 2 ^ 63) :
    Serializer.u64_as_i64 v = (v : Int) := by
  unfold Serializer.u64_as_i64
  have hv : v % 2 ^ 64 = v := Nat.mod_eq_of_lt (by omega)
  rw [hv, if_pos h]

/-- The cast `v as i64` on a `u64` value at or above the signed maximum wraps:
the result is `v - 2^64`. -/
theorem u64_as_i64_of_ge (v : Nat) (h1 : 2 ^ 63 ≤ v) (h2 : v < 2 ^ 64) :
    Serializer.u64_as_i64 v = (v : Int) - 2 ^ 64 := by
  unfold Serializer.u64_as_i64
  have hv : v % 2 ^ 64 = v := Nat.mod_eq_of_lt h2
  rw [hv, if_neg (by omega)]

/-- C1: every supported integer width (i8, i16, i32, i64, isize, u8, u16, u32,
u64, usize), at any value of its range that fits in the signed 64-bit range,
encodes to exactly `Integer` of the same mathematical value. -/
theorem c1_integer_widths_normalize
    (a b c d e : Int) (p q r u t : Nat)
    (ha : -(2 : Int) ^ 7 ≤ a ∧ a < 2 ^ 7)
    (hb : -(2 : Int) ^ 15 ≤ b ∧ b < 2 ^ 15)
    (hc : -(2 : Int) ^ 31 ≤ c ∧ c < 2 ^ 31)
    (hd : -(2 : Int) ^ 63 ≤ d ∧ d < 2 ^ 63)
    (he : -(2 : Int) ^ 63 ≤ e ∧ e < 2 ^ 63)
    (hp : p < 2 ^ 8) (hq : q < 2 ^ 16) (hr : r < 2 ^ 32)
    (hu : u < 2 ^ 63) (ht : t < 2 ^ 63) :
    Serializer.serialize_i8 a = Yaml.integer a ∧
    Serializer.serialize_i16 b = Yaml.integer b ∧
    Serializer.serialize_i32 c = Yaml.integer c ∧
    Serializer.serialize_i64 d = Yaml.integer d ∧
    Serializer.serialize_isize e = Yaml.integer e ∧
    Serializer.serialize_u8 p = Yaml.integer p ∧
    Serializer.serialize_u16 q = Yaml.integer q ∧
    Serializer.serialize_u32 r = Yaml.integer r ∧
    Serializer.serialize_u64 u = Yaml.integer u ∧
    Serializer.serialize_usize t = Yaml.integer t := by
  refine ⟨rfl, rfl, rfl, rfl, rfl, rfl, rfl, rfl, ?_, ?_⟩
  · simp [Serializer.serialize_u64, Serializer.serialize_i64, u64_as_i64_of_lt u hu]
  · simp [Serializer.serialize_usize, Serializer.serialize_i64, u64_as_i64_of_lt t ht]

/-- Witness for C1 at concrete values of every width, including the extreme
ones. -/
theorem c1_integer_widths_normalize_witness :
    Serializer.serialize_i8 (-128) = Yaml.integer (-128) ∧
    Serializer.serialize_i16 (-32768) = Yaml.integer (-32768) ∧
    Serializer.serialize_i32 (-2147483648) = Yaml.integer (-2147483648) ∧
    Serializer.serialize_i64 (-9223372036854775808) = Yaml.integer (-9223372036854775808) ∧
    Serializer.serialize_isize 7 = Yaml.integer 7 ∧
    Serializer.serialize_u8 255 = Yaml.integer 255 ∧
    Serializer.serialize_u16 65535 = Yaml.integer 65535 ∧
    Serializer.serialize_u32 4294967295 = Yaml.integer 4294967295 ∧
    Serializer.serialize_u64 9223372036854775807 = Yaml.integer 9223372036854775807 ∧
    Serializer.serialize_usize 42 = Yaml.integer 42 :=
  c1_integer_widths_normalize (-128) (-32768) (-2147483648) (-9223372036854775808) 7
    255 65535 4294967295 9223372036854775807 42
    (by norm_num) (by norm_num) (by norm_num) (by norm_num) (by norm_num)
    (by norm_num) (by norm_num) (by norm_num) (by norm_num) (by norm_num)

/-- C10: a `u64` (or `usize`) value beyond the signed 64-bit maximum does not
fail to encode; it silently becomes `Integer` of the value reinterpreted as a
two's-complement signed 64-bit number, i.e. the value minus `2^64`. -/
theorem c10_u64_overflow_wraps (v : Nat) (h1 : 2 ^ 63 ≤ v) (h2 : v < 2 ^ 64) :
    Serializer.serialize_u64 v = Yaml.integer ((v : Int) - 2 ^ 64) ∧
    Serializer.serialize_usize v = Yaml.integer ((v : Int) - 2 ^ 64) ∧
    to_yaml (.sU64 v) = .ok (Yaml.integer ((v : Int) - 2 ^ 64)) ∧
    to_yaml (.sUSize v) = .ok (Yaml.integer ((v : Int) - 2 ^ 64)) := by
  refine ⟨?_, ?_, ?_, ?_⟩ <;>
    simp [to_yaml, Serializer.serialize_u64, Serializer.serialize_usize,
      Serializer.serialize_i64, u64_as_i64_of_ge v h1 h2]

/-- Witness for C10 at `2^63`, the smallest overflowing value: the result is
the negative number `-2^63`. -/
theorem c10_u64_overflow_wraps_witness :
    Serializer.serialize_u64 (2 ^ 63) = Yaml.integer (((2 ^ 63 : Nat) : Int) - 2 ^ 64) :=
  (c10_u64_overflow_wraps (2 ^ 63) (by norm_num) (by norm_num)).1

/-- C2: a map-value event with an empty pending-key slot fails with the
protocol error and leaves both the slot (still empty) and the accumulated
pairs unchanged; a key event followed by a value event succeeds, appends the
pair, and empties the slot; and a value event errors exactly when no key is
pending. -/
theorem c2_map_value_needs_pending_key
    (ps : List (Yaml × Yaml)) (k v : Yaml) (pend : Option Yaml) :
    Serializer.serialize_map_value (none, ps) v =
      ((none, ps),
        .error (Error.custom
          "serialize_map_value called without matching serialize_map_key call")) ∧
    Serializer.serialize_map_value (Serializer.serialize_map_key (pend, ps) k).1 v =
      ((none, ps ++ [(k, v)]), .ok ()) ∧
    ((Serializer.serialize_map_value (pend, ps) v).2 =
      .error (Error.custom
        "serialize_map_value called without matching serialize_map_key call") ↔
      pend = none) := by
  refine ⟨rfl, rfl, ?_⟩
  cases pend <;> simp [Serializer.serialize_map_value, hashInsert]

/-- C3 counterexample: submitting a second key while the key "a" is still
pending does not error; the call returns Ok and the builder state shows the
earlier key silently overwritten by "b", with no pair recorded. -/
theorem c3_second_key_counterexample :
    Serializer.serialize_map_key
        (Serializer.serialize_map_key
          ((none, []) : Option Yaml × List (Yaml × Yaml)) (Yaml.string "a")).1
        (Yaml.string "b") =
      ((some (Yaml.string "b"), []), .ok ()) := rfl

/-- C3 amended: submitting a map-key event never raises an error, whatever the
pending-key slot holds; the serializer unconditionally returns Ok, overwrites
the slot with the new key, and leaves the accumulated pairs unchanged. -/
theorem c3_key_overwrites_silently
    (st : Option Yaml × List (Yaml × Yaml)) (k : Yaml) :
    Serializer.serialize_map_key st k = ((some k, st.2), .ok ()) := rfl

/-- C4: duplicate keys are passed through unchanged: submitting the same key
twice with two values records both pairs, and in general the closed hash holds
exactly one pair per successful key/value submission, in order. -/
theorem c4_duplicate_keys_passed_through
    (k v1 v2 : Yaml) (pairs : List (Yaml × Yaml)) :
    Serializer.runMapSubmissions [(k, v1), (k, v2)] (none, []) =
      ((none, [(k, v1), (k, v2)]), .ok ()) ∧
    Serializer.runMapSubmissions pairs (none, []) = ((none, pairs), .ok ()) ∧
    Serializer.serialize_map_end (Serializer.runMapSubmissions pairs (none, [])).1 =
      Yaml.hash pairs := by
  refine ⟨?_, ?_, ?_⟩
  · simpa using runMapSubmissions_ok [(k, v1), (k, v2)] []
  · simpa using runMapSubmissions_ok pairs []
  · rw [runMapSubmissions_ok pairs []]
    simp [Serializer.serialize_map_end]

/-- C7: a map built from key/value submissions with pairwise-distinct keys
closes to a hash listing the pairs in exactly the submission order. -/
theorem c7_insertion_order_preserved (pairs : List (Yaml × Yaml))
    (hdist : pairs.Pairwise (fun a b => a.1 ≠ b.1)) :
    Serializer.runMapSubmissions pairs (none, []) = ((none, pairs), .ok ()) ∧
    Serializer.serialize_map_end (Serializer.runMapSubmissions pairs (none, [])).1 =
      Yaml.hash pairs := by
  refine ⟨by simpa using runMapSubmissions_ok pairs [], ?_⟩
  rw [runMapSubmissions_ok pairs []]
  simp [Serializer.serialize_map_end]

/-- Witness for C7 on the spec's example: the keys "z" and "a" submitted in
that order come out in that order, not re-sorted. -/
theorem c7_insertion_order_preserved_witness :
    Serializer.runMapSubmissions
        [(Yaml.string "z", Yaml.integer 1), (Yaml.string "a", Yaml.integer 2)]
        (none, []) =
      ((none, [(Yaml.string "z", Yaml.integer 1), (Yaml.string "a", Yaml.integer 2)]),
        .ok ()) ∧
    Serializer.serialize_map_end
        (Serializer.runMapSubmissions
          [(Yaml.string "z", Yaml.integer 1), (Yaml.string "a", Yaml.integer 2)]
          (none, [])).1 =
      Yaml.hash [(Yaml.string "z", Yaml.integer 1), (Yaml.string "a", Yaml.integer 2)] :=
  c7_insertion_order_preserved
    [(Yaml.string "z", Yaml.integer 1), (Yaml.string "a", Yaml.integer 2)]
    (by simp)

/-- C8: a byte sequence of length N encodes to an array of exactly N elements,
the i-th being `Integer` of the i-th byte. -/
theorem c8_bytes_as_integer_array (bs : List Nat) (h : ∀ b ∈ bs, b < 256) :
    Serializer.serialize_bytes bs =
      Yaml.array (bs.map (fun b => Yaml.integer (Int.ofNat b))) ∧
    (bs.map (fun b => Yaml.integer (Int.ofNat b))).length = bs.length := by
  refine ⟨?_, by simp⟩
  unfold Serializer.serialize_bytes
  rw [foldl_bytes_eq_map]
  simp [Serializer.serialize_seq, Serializer.serialize_seq_end]

/-- Witness for C8 on the spec's example bytes `0x41 0x00 0xFF`. -/
theorem c8_bytes_as_integer_array_witness :
    Serializer.serialize_bytes [65, 0, 255] =
      Yaml.array [Yaml.integer 65, Yaml.integer 0, Yaml.integer 255] := by
  have h := (c8_bytes_as_integer_array [65, 0, 255] (by decide)).1
  simpa using h

/-- C6: the optional wrapper leaves no trace: encoding `Some(x)` is encoding
`x` itself, and encoding `None` is encoding unit, which is `Null`. -/
theorem c6_option_flattening (x : SValue) :
    to_yaml (.sSome x) = to_yaml x ∧
    to_yaml .sNone = to_yaml .sUnit ∧
    to_yaml .sUnit = .ok Yaml.null :=
  ⟨rfl, rfl, rfl⟩

/-- C5: every payload-carrying variant encodes as a singleton hash keyed by
the variant's declared name, whose value is the payload's encoding: the
wrapped value's encoding for a newtype variant, the array of the elements'
encodings for a tuple variant, and the hash of the encoded fields (the same
hash the corresponding struct would encode to) for a struct variant. -/
theorem c5_variant_wrapping
    (ename variant : String) (idx : Nat)
    (x : SValue) (y : Yaml) (xs : List SValue) (ys : List Yaml)
    (fields : List (String × SValue)) (fst : Option Yaml × List (Yaml × Yaml))
    (hx : to_yaml x = .ok y)
    (hxs : to_yaml_list xs = .ok ys)
    (hf : to_yaml_fields fields (none, []) = .ok fst) :
    to_yaml (.sNewtypeVariant ename idx variant x) =
      .ok (Yaml.hash [(Yaml.string variant, y)]) ∧
    to_yaml (.sTupleVariant ename idx variant xs) =
      .ok (Yaml.hash [(Yaml.string variant, Yaml.array ys)]) ∧
    to_yaml (.sStructVariant ename idx variant fields) =
      .ok (Yaml.hash [(Yaml.string variant, Yaml.hash fst.2)]) ∧
    to_yaml (.sStruct ename fields) = .ok (Yaml.hash fst.2) := by
  refine ⟨?_, ?_, ?_, ?_⟩ <;> simp only [to_yaml, hx, hxs, hf] <;> rfl

/-- Witness for C5 on one concrete variant of each payload shape. -/
theorem c5_variant_wrapping_witness :
    to_yaml (.sNewtypeVariant "E" 0 "V" (.sBool true)) =
      .ok (Yaml.hash [(Yaml.string "V", Yaml.boolean true)]) ∧
    to_yaml (.sTupleVariant "E" 0 "V" [.sI64 1, .sI64 2]) =
      .ok (Yaml.hash [(Yaml.string "V", Yaml.array [Yaml.integer 1, Yaml.integer 2])]) ∧
    to_yaml (.sStructVariant "E" 0 "V" [("a", .sUnit)]) =
      .ok (Yaml.hash [(Yaml.string "V",
        Yaml.hash [(Yaml.string "a", Yaml.null)])]) ∧
    to_yaml (.sStruct "E" [("a", .sUnit)]) =
      .ok (Yaml.hash [(Yaml.string "a", Yaml.null)]) :=
  c5_variant_wrapping "E" "V" 0 (.sBool true) (Yaml.boolean true)
    [.sI64 1, .sI64 2] [Yaml.integer 1, Yaml.integer 2]
    [("a", .sUnit)] (none, [(Yaml.string "a", Yaml.null)]) rfl rfl rfl

/-- C9: the writer adapter forwards exactly the chunk's UTF-8 bytes to the
underlying sink (demonstrated observably on the byte-buffer sink, where they
are all appended), leaves the sink state whatever the single `write` call
leaves, fails exactly when the sink's write fails, and then returns the opaque
unit `fmt::Error` that preserves nothing of the I/O error's detail. -/
theorem c9_write_str_forwards_and_wraps_errors
    {σ : Type} (write : σ → List Nat → σ × Except IoError Nat)
    (st : σ) (s : String) (buf : List Nat) :
    FmtToIoWriter.write_str FmtToIoWriter.vecWrite buf s =
      (buf ++ strBytes s, .ok ()) ∧
    (FmtToIoWriter.write_str write st s).1 = (write st (strBytes s)).1 ∧
    (∀ e : IoError, (write st (strBytes s)).2 = .error e →
      FmtToIoWriter.write_str write st s =
        ((write st (strBytes s)).1, .error FmtError.mk)) ∧
    ((FmtToIoWriter.write_str write st s).2 = .error FmtError.mk ↔
      ∃ e : IoError, (write st (strBytes s)).2 = .error e) := by
  refine ⟨rfl, ?_, ?_, ?_⟩
  · unfold FmtToIoWriter.write_str
    cases h : (write st (strBytes s)).2 <;> simp [h]
  · intro e he
    simp [FmtToIoWriter.write_str, he]
  · unfold FmtToIoWriter.write_str
    cases h : (write st (strBytes s)).2 <;> simp [h]

/-- Witness for C9: on the byte-buffer sink the chunk "A" lands as its byte 65
with success; on an always-failing sink the detailed I/O error "broken pipe"
comes back as the bare opaque formatting error. -/
theorem c9_write_str_forwards_and_wraps_errors_witness :
    FmtToIoWriter.write_str FmtToIoWriter.vecWrite [] "A" = ([65], .ok ()) ∧
    FmtToIoWriter.write_str (FmtToIoWriter.failWrite "broken pipe") () "A" =
      ((), .error FmtError.mk) := by
  constructor
  · exact (c9_write_str_forwards_and_wraps_errors
      FmtToIoWriter.vecWrite [] "A" []).1
  · exact (c9_write_str_forwards_and_wraps_errors
      (FmtToIoWriter.failWrite "broken pipe") () "A" []).2.2.1 "broken pipe" rfl
